import Mathlib

/-!
Verification of the ISPU (Indonesian standardized air pollution index)
computation engine embedded in `app.py`: the breakpoint table, the per-pollutant
sub-index interpolation, the aggregation / dominant-pollutant rule, the category
classifiers, and the input-validation gate. All numeric code is modelled over
the rationals; Python float `round(x, 2)` is modelled as round-half-to-even of
`100 * x` divided by `100`.
-/

namespace Ispu

/-- Round-half-to-even of a rational to an integer (the tie-breaking rule used
by the Python builtin `round`). -/
def roundHalfEven (x : ℚ) : ℤ :=
  if x - (⌊x⌋ : ℚ) < 1/2 then ⌊x⌋
  else if 1/2 < x - (⌊x⌋ : ℚ) then ⌊x⌋ + 1
  else if ⌊x⌋ % 2 = 0 then ⌊x⌋ else ⌊x⌋ + 1

/-- Model of Python `round(x, 2)`: round to two decimal places, ties to even. -/
def round2 (x : ℚ) : ℚ := (roundHalfEven (x * 100) : ℚ) / 100

/-- The six pollutants of the index computation. -/
inductive Pollutant
  | pm10 | pm2_5 | so2 | no2 | o3 | co
deriving DecidableEq

/-- The breakpoint table of `calculate_ispu_manual` (the `thresholds` dict):
six concentration breakpoints per pollutant, in μg/m³ (CO after conversion). -/
def thresholds : Pollutant → List ℚ
  | .pm10 => [0, 50, 150, 350, 420, 500]
  | .pm2_5 => [0, 15.5, 55.4, 150.4, 250.4, 350.4]
  | .so2 => [0, 52, 180, 400, 800, 1200]
  | .no2 => [0, 80, 200, 1130, 2260, 3000]
  | .o3 => [0, 120, 235, 400, 800, 1000]
  | .co => [0, 4000, 8000, 15000, 30000, 45000]

/-- The interpolation body of `calculate_sub_index` for band `i`: linear
interpolation between `thresh[i]` and `thresh[i+1]`, rounded to 2 decimals,
with the division-by-zero guard returning `I_low` unrounded. -/
def interpBand (thresh : List ℚ) (i : ℕ) (C : ℚ) : ℚ :=
  let I_low : ℚ := (i : ℚ) * 50
  let I_high : ℚ := ((i : ℚ) + 1) * 50
  let C_low := thresh.getD i 0
  let C_high := thresh.getD (i + 1) 0
  if C_high - C_low = 0 then I_low
  else round2 (((I_high - I_low) / (C_high - C_low)) * (C - C_low) + I_low)

/-- The `for i in range(5)` scan of `calculate_sub_index`: starting at band `i`
with `fuel` bands left to try, return the interpolation of the first band whose
upper breakpoint is at least `C`, and `500` when all bands are exhausted. -/
def scanFrom (thresh : List ℚ) (C : ℚ) : ℕ → ℕ → ℚ
  | 0, _ => 500
  | fuel + 1, i =>
    if C ≤ thresh.getD (i + 1) 0 then interpBand thresh i C
    else scanFrom thresh C fuel (i + 1)

/-- Embedding of `calculate_sub_index(C, pollutant)` of `app.py`. -/
def calculate_sub_index (C : ℚ) (pollutant : Pollutant) : ℚ :=
  scanFrom (thresholds pollutant) C 5 0

/-- Model of Python `max` on a (nonempty) list: left fold of binary max over the
tail, starting from the head. -/
def pyMax : List ℚ → ℚ
  | [] => 0
  | x :: xs => xs.foldl max x

/-- Model of Python `list.index(x)`: position of the first occurrence of `x`. -/
def idxOf (x : ℚ) : List ℚ → ℕ
  | [] => 0
  | y :: ys => if y = x then 0 else idxOf x ys + 1

/-- The fixed pollutant display order of `calculate_ispu_manual`. -/
def pollutantNames : List String := ["PM10", "PM2.5", "SO₂", "NO₂", "O₃", "CO"]

/-- Embedding of `calculate_ispu_manual(pm10, pm2_5, so2, no2, o3, co)` of `app.py`:
CO is converted from mg/m³ to μg/m³, the six sub-indices are computed, the
overall index is their maximum, and the dominant pollutant is the name at the
first index attaining that maximum. -/
def calculate_ispu_manual (pm10 pm2_5 so2 no2 o3 co : ℚ) :
    ℚ × List ℚ × String :=
  let co_ug := co * 1000
  let sub_indices : List ℚ :=
    [calculate_sub_index pm10 Pollutant.pm10,
     calculate_sub_index pm2_5 Pollutant.pm2_5,
     calculate_sub_index so2 Pollutant.so2,
     calculate_sub_index no2 Pollutant.no2,
     calculate_sub_index o3 Pollutant.o3,
     calculate_sub_index co_ug Pollutant.co]
  let ispu := pyMax sub_indices
  let dominant_idx := idxOf ispu sub_indices
  (ispu, sub_indices, pollutantNames.getD dominant_idx "")

/-- Embedding of `classify_based_on_ispu(ispu)` of `app.py`. -/
def classify_based_on_ispu (ispu : ℚ) : String :=
  if ispu ≤ 50 then "Baik 🟢"
  else if ispu ≤ 100 then "Sedang 🟡"
  else if ispu ≤ 200 then "Tidak Sehat 🟠"
  else if ispu ≤ 300 then "Sangat Tidak Sehat 🔴"
  else "Berbahaya 🟣"

/-- Embedding of `classify_air_quality(ispu_value)` of `app.py`: label, color, emoji. -/
def classify_air_quality (ispu_value : ℚ) : String × String × String :=
  if ispu_value ≤ 50 then ("Baik", "#10B981", "😊")
  else if ispu_value ≤ 100 then ("Sedang", "#F59E0B", "😐")
  else if ispu_value ≤ 200 then ("Tidak Sehat", "#EF4444", "😷")
  else if ispu_value ≤ 300 then ("Sangat Tidak Sehat", "#7C3AED", "🤢")
  else ("Berbahaya", "#DC2626", "☠️")

/-- Model of Python `str.lower()` (character-wise lowering, as used on input keys). -/
def pyLower (s : String) : String := ⟨s.data.map Char.toLower⟩

/-- Model of Python `str.upper()` (character-wise raising, as used in messages). -/
def pyUpper (s : String) : String := ⟨s.data.map Char.toUpper⟩

/-- Embedding of `validate_inputs(inputs)` of `app.py`: keys are lowercased, each entry gets
a negativity / 10000-cap message, and a CO-specific message is appended when
the `co` entry (default 0) exceeds 100. -/
def validate_inputs (inputs : List (String × ℚ)) : List String :=
  let inputs_lower := inputs.map (fun kv => (pyLower kv.1, kv.2))
  let loopErrs := inputs_lower.foldr
    (fun kv acc =>
      (if kv.2 < 0 then [pyUpper kv.1 ++ " tidak boleh negatif"]
       else if kv.2 > 10000 then
         [pyUpper kv.1 ++ " terlalu tinggi (maksimal 10000)"]
       else []) ++ acc) []
  let co_value := ((inputs_lower.lookup "co").getD 0)
  loopErrs ++
    (if co_value > 100 then ["Nilai CO terlalu tinggi (maksimal 100 mg/m³)"]
     else [])

/-- The eight readings entered on the prediction page. -/
structure Readings where
  pm10 : ℚ
  pm2_5 : ℚ
  so2 : ℚ
  no : ℚ
  no2 : ℚ
  o3 : ℚ
  co : ℚ
  nh3 : ℚ

/-- The `inputs` dict built by the prediction page before validation. -/
def inputsList (r : Readings) : List (String × ℚ) :=
  [("pm10", r.pm10), ("pm2_5", r.pm2_5), ("so2", r.so2), ("no", r.no),
   ("no2", r.no2), ("o3", r.o3), ("co", r.co), ("nh3", r.nh3)]

/-- The prediction-page gate: validate, and only when no validation message
exists invoke the engine (`st.stop()` on errors is modelled as `Except`). -/
def runPrediction (r : Readings) : Except (List String) (ℚ × List ℚ × String) :=
  let errs := validate_inputs (inputsList r)
  if errs.isEmpty then
    Except.ok (calculate_ispu_manual r.pm10 r.pm2_5 r.so2 r.no2 r.o3 r.co)
  else Except.error errs

/-- Fields of a readings record violating a validation rule (negative, above
10000, or — for CO — above 100), in input order. -/
def offendingFields (r : Readings) : List String :=
  (if r.pm10 < 0 ∨ r.pm10 > 10000 then ["pm10"] else []) ++
  ((if r.pm2_5 < 0 ∨ r.pm2_5 > 10000 then ["pm2_5"] else []) ++
  ((if r.so2 < 0 ∨ r.so2 > 10000 then ["so2"] else []) ++
  ((if r.no < 0 ∨ r.no > 10000 then ["no"] else []) ++
  ((if r.no2 < 0 ∨ r.no2 > 10000 then ["no2"] else []) ++
  ((if r.o3 < 0 ∨ r.o3 > 10000 then ["o3"] else []) ++
  ((if r.co < 0 ∨ r.co > 10000 ∨ r.co > 100 then ["co"] else []) ++
  (if r.nh3 < 0 ∨ r.nh3 > 10000 then ["nh3"] else [])))))))

/-- Overall index of `calculate_ispu_manual` with one pollutant set to the given concentration
and all other concentrations 0. -/
def singleInput : Pollutant → ℚ → ℚ × List ℚ × String
  | .pm10, c => calculate_ispu_manual c 0 0 0 0 0
  | .pm2_5, c => calculate_ispu_manual 0 c 0 0 0 0
  | .so2, c => calculate_ispu_manual 0 0 c 0 0 0
  | .no2, c => calculate_ispu_manual 0 0 0 c 0 0
  | .o3, c => calculate_ispu_manual 0 0 0 0 c 0
  | .co, c => calculate_ispu_manual 0 0 0 0 0 c


lemma le_roundHalfEven (x : ℚ) : ⌊x⌋ ≤ roundHalfEven x := by
  unfold roundHalfEven; split_ifs <;> omega

lemma roundHalfEven_le (x : ℚ) : roundHalfEven x ≤ ⌊x⌋ + 1 := by
  unfold roundHalfEven; split_ifs <;> omega

lemma roundHalfEven_mono {x y : ℚ} (h : x ≤ y) :
    roundHalfEven x ≤ roundHalfEven y := by
  have hf : ⌊x⌋ ≤ ⌊y⌋ := Int.floor_le_floor h
  rcases eq_or_lt_of_le hf with heq | hlt
  · have hr : x - (⌊x⌋ : ℚ) ≤ y - (⌊x⌋ : ℚ) := by linarith
    unfold roundHalfEven
    rw [← heq]
    split_ifs <;> first | omega | linarith
  · calc roundHalfEven x ≤ ⌊x⌋ + 1 := roundHalfEven_le x
    _ ≤ ⌊y⌋ := by omega
    _ ≤ roundHalfEven y := le_roundHalfEven y

lemma roundHalfEven_intCast (n : ℤ) : roundHalfEven (n : ℚ) = n := by
  unfold roundHalfEven
  rw [Int.floor_intCast]
  rw [if_pos (by norm_num)]

lemma round2_mono {x y : ℚ} (h : x ≤ y) : round2 x ≤ round2 y := by
  unfold round2
  have h1 := roundHalfEven_mono (show x * 100 ≤ y * 100 by linarith)
  have h2 : ((roundHalfEven (x * 100) : ℤ) : ℚ) ≤ (roundHalfEven (y * 100) : ℚ) := by
    exact_mod_cast h1
  linarith

lemma round2_intCast (n : ℤ) : round2 (n : ℚ) = n := by
  unfold round2
  have : ((n : ℚ)) * 100 = ((n * 100 : ℤ) : ℚ) := by push_cast; ring
  rw [this, roundHalfEven_intCast]
  push_cast
  ring

lemma round2_le_of_le {x c : ℚ} (hc : round2 c = c) (h : x ≤ c) : round2 x ≤ c := by
  calc round2 x ≤ round2 c := round2_mono h
  _ = c := hc

lemma le_round2_of_le {x c : ℚ} (hc : round2 c = c) (h : c ≤ x) : c ≤ round2 x := by
  calc c = round2 c := hc.symm
  _ ≤ round2 x := round2_mono h

/-- Unrolled form of `calculate_sub_index` for PM10. -/
lemma sub_pm10_eq (C : ℚ) : calculate_sub_index C .pm10 =
    if C ≤ 50 then round2 ((50/50) * (C - 0) + 0)
    else if C ≤ 150 then round2 ((50/100) * (C - 50) + 50)
    else if C ≤ 350 then round2 ((50/200) * (C - 150) + 100)
    else if C ≤ 420 then round2 ((50/70) * (C - 350) + 150)
    else if C ≤ 500 then round2 ((50/80) * (C - 420) + 200)
    else 500 := by
  simp only [calculate_sub_index, scanFrom, interpBand, thresholds]
  norm_num

/-- Unrolled form of `calculate_sub_index` for PM2.5. -/
lemma sub_pm2_5_eq (C : ℚ) : calculate_sub_index C .pm2_5 =
    if C ≤ 15.5 then round2 ((50/15.5) * (C - 0) + 0)
    else if C ≤ 55.4 then round2 ((50/39.9) * (C - 15.5) + 50)
    else if C ≤ 150.4 then round2 ((50/95) * (C - 55.4) + 100)
    else if C ≤ 250.4 then round2 ((50/100) * (C - 150.4) + 150)
    else if C ≤ 350.4 then round2 ((50/100) * (C - 250.4) + 200)
    else 500 := by
  simp only [calculate_sub_index, scanFrom, interpBand, thresholds]
  norm_num

/-- Unrolled form of `calculate_sub_index` for SO₂. -/
lemma sub_so2_eq (C : ℚ) : calculate_sub_index C .so2 =
    if C ≤ 52 then round2 ((50/52) * (C - 0) + 0)
    else if C ≤ 180 then round2 ((50/128) * (C - 52) + 50)
    else if C ≤ 400 then round2 ((50/220) * (C - 180) + 100)
    else if C ≤ 800 then round2 ((50/400) * (C - 400) + 150)
    else if C ≤ 1200 then round2 ((50/400) * (C - 800) + 200)
    else 500 := by
  simp only [calculate_sub_index, scanFrom, interpBand, thresholds]
  norm_num

/-- Unrolled form of `calculate_sub_index` for NO₂. -/
lemma sub_no2_eq (C : ℚ) : calculate_sub_index C .no2 =
    if C ≤ 80 then round2 ((50/80) * (C - 0) + 0)
    else if C ≤ 200 then round2 ((50/120) * (C - 80) + 50)
    else if C ≤ 1130 then round2 ((50/930) * (C - 200) + 100)
    else if C ≤ 2260 then round2 ((50/1130) * (C - 1130) + 150)
    else if C ≤ 3000 then round2 ((50/740) * (C - 2260) + 200)
    else 500 := by
  simp only [calculate_sub_index, scanFrom, interpBand, thresholds]
  norm_num

/-- Unrolled form of `calculate_sub_index` for O₃. -/
lemma sub_o3_eq (C : ℚ) : calculate_sub_index C .o3 =
    if C ≤ 120 then round2 ((50/120) * (C - 0) + 0)
    else if C ≤ 235 then round2 ((50/115) * (C - 120) + 50)
    else if C ≤ 400 then round2 ((50/165) * (C - 235) + 100)
    else if C ≤ 800 then round2 ((50/400) * (C - 400) + 150)
    else if C ≤ 1000 then round2 ((50/200) * (C - 800) + 200)
    else 500 := by
  simp only [calculate_sub_index, scanFrom, interpBand, thresholds]
  norm_num

/-- Unrolled form of `calculate_sub_index` for CO (in μg/m³). -/
lemma sub_co_eq (C : ℚ) : calculate_sub_index C .co =
    if C ≤ 4000 then round2 ((50/4000) * (C - 0) + 0)
    else if C ≤ 8000 then round2 ((50/4000) * (C - 4000) + 50)
    else if C ≤ 15000 then round2 ((50/7000) * (C - 8000) + 100)
    else if C ≤ 30000 then round2 ((50/15000) * (C - 15000) + 150)
    else if C ≤ 45000 then round2 ((50/15000) * (C - 30000) + 200)
    else 500 := by
  simp only [calculate_sub_index, scanFrom, interpBand, thresholds]
  norm_num


lemma getD_list6_0 {α : Type} (a b c d e f g : α) : ([a,b,c,d,e,f] : List α).getD 0 g = a := rfl
lemma getD_list6_1 {α : Type} (a b c d e f g : α) : ([a,b,c,d,e,f] : List α).getD 1 g = b := rfl
lemma getD_list6_2 {α : Type} (a b c d e f g : α) : ([a,b,c,d,e,f] : List α).getD 2 g = c := rfl
lemma getD_list6_3 {α : Type} (a b c d e f g : α) : ([a,b,c,d,e,f] : List α).getD 3 g = d := rfl
lemma getD_list6_4 {α : Type} (a b c d e f g : α) : ([a,b,c,d,e,f] : List α).getD 4 g = e := rfl
lemma getD_list6_5 {α : Type} (a b c d e f g : α) : ([a,b,c,d,e,f] : List α).getD 5 g = f := rfl

lemma round2_0 : round2 (0 : ℚ) = 0 := by
  have h := round2_intCast 0
  push_cast at h
  exact h

lemma round2_250 : round2 (250 : ℚ) = 250 := by
  have h := round2_intCast 250
  push_cast at h
  exact h

lemma foldl_max_ge_init (l : List ℚ) (a : ℚ) : a ≤ l.foldl max a := by
  induction l generalizing a with
  | nil => simp
  | cons b t ih => exact le_trans (le_max_left a b) (ih (max a b))

lemma foldl_max_ge_mem {l : List ℚ} {x : ℚ} (hx : x ∈ l) (a : ℚ) :
    x ≤ l.foldl max a := by
  induction l generalizing a with
  | nil => cases hx
  | cons b t ih =>
    rcases List.mem_cons.mp hx with rfl | hmem
    · exact le_trans (le_max_right a x) (foldl_max_ge_init t (max a x))
    · exact ih hmem (max a b)

lemma le_pyMax {l : List ℚ} {x : ℚ} (hx : x ∈ l) : x ≤ pyMax l := by
  cases l with
  | nil => cases hx
  | cons b t =>
    rcases List.mem_cons.mp hx with rfl | hmem
    · exact foldl_max_ge_init t x
    · exact foldl_max_ge_mem hmem b

lemma foldl_max_mem (l : List ℚ) (a : ℚ) :
    l.foldl max a = a ∨ l.foldl max a ∈ l := by
  induction l generalizing a with
  | nil => left; rfl
  | cons b t ih =>
    rcases ih (max a b) with h | h
    · rcases max_choice a b with heq | heq
      · left; simpa [heq] using h
      · right; rw [List.foldl_cons, h, heq]; exact List.mem_cons_self b t
    · right; exact List.mem_cons_of_mem b h

lemma pyMax_mem {l : List ℚ} (h : l ≠ []) : pyMax l ∈ l := by
  cases l with
  | nil => exact absurd rfl h
  | cons b t =>
    rcases foldl_max_mem t b with heq | hmem
    · rw [pyMax, heq]; exact List.mem_cons_self b t
    · exact List.mem_cons_of_mem b hmem

lemma pyMax6_mono {a1 a2 a3 a4 a5 a6 b1 b2 b3 b4 b5 b6 : ℚ}
    (h1 : a1 ≤ b1) (h2 : a2 ≤ b2) (h3 : a3 ≤ b3) (h4 : a4 ≤ b4)
    (h5 : a5 ≤ b5) (h6 : a6 ≤ b6) :
    pyMax [a1, a2, a3, a4, a5, a6] ≤ pyMax [b1, b2, b3, b4, b5, b6] := by
  simp only [pyMax, List.foldl]
  exact max_le_max (max_le_max (max_le_max (max_le_max (max_le_max h1 h2) h3) h4) h5) h6

lemma idxOf_lt_length {x : ℚ} {l : List ℚ} (h : x ∈ l) : idxOf x l < l.length := by
  induction l with
  | nil => cases h
  | cons b t ih =>
    rw [idxOf]
    by_cases hb : b = x
    · simp [hb]
    · have hmem : x ∈ t := by
        rcases List.mem_cons.mp h with rfl | hm
        · exact absurd rfl hb
        · exact hm
      simp only [if_neg hb, List.length_cons]
      have := ih hmem
      omega
      
lemma getD_idxOf {x : ℚ} {l : List ℚ} (h : x ∈ l) : l.getD (idxOf x l) 0 = x := by
  induction l with
  | nil => cases h
  | cons b t ih =>
    rw [idxOf]
    by_cases hb : b = x
    · simp [hb]
    · have hmem : x ∈ t := by
        rcases List.mem_cons.mp h with rfl | hm
        · exact absurd rfl hb
        · exact hm
      simp only [if_neg hb, List.getD_cons_succ]
      exact ih hmem

lemma getD_lt_idxOf {x : ℚ} {l : List ℚ} :
    ∀ k, k < idxOf x l → l.getD k 0 ≠ x := by
  induction l with
  | nil => intro k hk; rw [idxOf] at hk; omega
  | cons b t ih =>
    intro k hk
    rw [idxOf] at hk
    by_cases hb : b = x
    · rw [if_pos hb] at hk; omega
    · rw [if_neg hb] at hk
      cases k with
      | zero => simpa using hb
      | succ n =>
        rw [List.getD_cons_succ]
        exact ih n (by omega)

lemma getD_mem_of_lt {l : List ℚ} {k : ℕ} (h : k < l.length) : l.getD k 0 ∈ l := by
  rw [List.getD_eq_getElem l 0 h]
  exact List.getElem_mem h


lemma round2_500 : round2 (500 : ℚ) = 500 := by
  have h := round2_intCast 500
  push_cast at h
  exact h

set_option maxHeartbeats 1600000 in
/-- Monotonicity: `calculate_sub_index` is monotone in the concentration, for every
pollutant. -/
lemma sub_mono (p : Pollutant) {C1 C2 : ℚ} (h : C1 ≤ C2) :
    calculate_sub_index C1 p ≤ calculate_sub_index C2 p := by
  cases p
  case pm10 =>
    rw [sub_pm10_eq C1, sub_pm10_eq C2]
    split_ifs <;>
      first
        | exact round2_mono (by linarith)
        | exact round2_le_of_le round2_500 (by linarith)
        | linarith
  case pm2_5 =>
    rw [sub_pm2_5_eq C1, sub_pm2_5_eq C2]
    split_ifs <;>
      first
        | exact round2_mono (by linarith)
        | exact round2_le_of_le round2_500 (by linarith)
        | linarith
  case so2 =>
    rw [sub_so2_eq C1, sub_so2_eq C2]
    split_ifs <;>
      first
        | exact round2_mono (by linarith)
        | exact round2_le_of_le round2_500 (by linarith)
        | linarith
  case no2 =>
    rw [sub_no2_eq C1, sub_no2_eq C2]
    split_ifs <;>
      first
        | exact round2_mono (by linarith)
        | exact round2_le_of_le round2_500 (by linarith)
        | linarith
  case o3 =>
    rw [sub_o3_eq C1, sub_o3_eq C2]
    split_ifs <;>
      first
        | exact round2_mono (by linarith)
        | exact round2_le_of_le round2_500 (by linarith)
        | linarith
  case co =>
    rw [sub_co_eq C1, sub_co_eq C2]
    split_ifs <;>
      first
        | exact round2_mono (by linarith)
        | exact round2_le_of_le round2_500 (by linarith)
        | linarith

end Ispu
namespace Ispu

/-- Claim C4: the category is a pure function of the overall index with closed
upper boundaries: (0,50] Baik, (50,100] Sedang, (100,200] Tidak Sehat,
(200,300] Sangat Tidak Sehat, above 300 Berbahaya. -/
theorem classify_closed_ranges (x : ℚ) :
    (0 ≤ x → x ≤ 50 → classify_based_on_ispu x = "Baik 🟢") ∧
    (50 < x → x ≤ 100 → classify_based_on_ispu x = "Sedang 🟡") ∧
    (100 < x → x ≤ 200 → classify_based_on_ispu x = "Tidak Sehat 🟠") ∧
    (200 < x → x ≤ 300 → classify_based_on_ispu x = "Sangat Tidak Sehat 🔴") ∧
    (300 < x → classify_based_on_ispu x = "Berbahaya 🟣") := by
  refine ⟨fun h0 hb => ?_, fun ha hb => ?_, fun ha hb => ?_, fun ha hb => ?_,
    fun ha => ?_⟩ <;>
  · unfold classify_based_on_ispu
    split_ifs <;> first | rfl | linarith

/-- Witness for C4 at the boundary points 50, 50.01, 300, 300.01. -/
theorem classify_closed_ranges_boundary :
    classify_based_on_ispu 50 = "Baik 🟢" ∧
    classify_based_on_ispu 50.01 = "Sedang 🟡" ∧
    classify_based_on_ispu 300 = "Sangat Tidak Sehat 🔴" ∧
    classify_based_on_ispu 300.01 = "Berbahaya 🟣" :=
  ⟨(classify_closed_ranges 50).1 (by norm_num) (by norm_num),
   (classify_closed_ranges 50.01).2.1 (by norm_num) (by norm_num),
   (classify_closed_ranges 300).2.2.2.1 (by norm_num) (by norm_num),
   (classify_closed_ranges 300.01).2.2.2.2 (by norm_num)⟩

/-- Claim C5: the breakpoint table is the fixed constant of the spec, and each
pollutant breakpoint sequence is strictly increasing. -/
theorem thresholds_table :
    thresholds Pollutant.pm10 = [0, 50, 150, 350, 420, 500] ∧
    thresholds Pollutant.pm2_5 = [0, 15.5, 55.4, 150.4, 250.4, 350.4] ∧
    thresholds Pollutant.so2 = [0, 52, 180, 400, 800, 1200] ∧
    thresholds Pollutant.no2 = [0, 80, 200, 1130, 2260, 3000] ∧
    thresholds Pollutant.o3 = [0, 120, 235, 400, 800, 1000] ∧
    thresholds Pollutant.co = [0, 4000, 8000, 15000, 30000, 45000] ∧
    ∀ p : Pollutant, List.Chain' (fun a b => a < b) (thresholds p) := by
  refine ⟨rfl, rfl, rfl, rfl, rfl, rfl, fun p => ?_⟩
  cases p <;> norm_num [thresholds, List.chain'_cons]

/-- The emoji suffix `classify_based_on_ispu` appends to each label of
`classify_air_quality` (stated from the spec side for the refinement claim). -/
def emojiSuffix (label : String) : String :=
  if label = "Baik" then " 🟢"
  else if label = "Sedang" then " 🟡"
  else if label = "Tidak Sehat" then " 🟠"
  else if label = "Sangat Tidak Sehat" then " 🔴"
  else " 🟣"

/-- Claim C10: the two classifiers partition the index range at identical
thresholds: `classify_based_on_ispu` returns exactly the label component of
`classify_air_quality` extended with an emoji suffix. -/
theorem classifiers_agree (x : ℚ) :
    classify_based_on_ispu x =
      (classify_air_quality x).1 ++ emojiSuffix (classify_air_quality x).1 := by
  unfold classify_based_on_ispu classify_air_quality
  split_ifs <;> rfl

end Ispu
namespace Ispu

/-- Claim C2 counterexample: at PM10 concentration exactly the top breakpoint
(500), the code selects band 4 and returns sub-index 250, not 500. -/
theorem sub_at_top_ne_500 :
    calculate_sub_index 500 Pollutant.pm10 = 250 ∧
    calculate_sub_index 500 Pollutant.pm10 ≠ 500 := by
  have h : calculate_sub_index 500 Pollutant.pm10 = 250 := by
    rw [sub_pm10_eq]
    norm_num [round2_250]
  exact ⟨h, by rw [h]; norm_num⟩

/-- Claim C2 amended: for every pollutant, any concentration strictly above the
top breakpoint yields sub-index exactly 500, while a concentration exactly at
the top breakpoint yields sub-index 250. -/
theorem sub_saturation (p : Pollutant) :
    (∀ C : ℚ, (thresholds p).getD 5 0 < C → calculate_sub_index C p = 500) ∧
    calculate_sub_index ((thresholds p).getD 5 0) p = 250 := by
  cases p
  case pm10 =>
    constructor
    · intro C hC
      simp only [thresholds, getD_list6_5] at hC
      rw [sub_pm10_eq]
      split_ifs <;> linarith
    · simp only [thresholds, getD_list6_5]
      rw [sub_pm10_eq]
      norm_num [round2_250]
  case pm2_5 =>
    constructor
    · intro C hC
      simp only [thresholds, getD_list6_5] at hC
      rw [sub_pm2_5_eq]
      split_ifs <;> linarith
    · simp only [thresholds, getD_list6_5]
      rw [sub_pm2_5_eq]
      norm_num [round2_250]
  case so2 =>
    constructor
    · intro C hC
      simp only [thresholds, getD_list6_5] at hC
      rw [sub_so2_eq]
      split_ifs <;> linarith
    · simp only [thresholds, getD_list6_5]
      rw [sub_so2_eq]
      norm_num [round2_250]
  case no2 =>
    constructor
    · intro C hC
      simp only [thresholds, getD_list6_5] at hC
      rw [sub_no2_eq]
      split_ifs <;> linarith
    · simp only [thresholds, getD_list6_5]
      rw [sub_no2_eq]
      norm_num [round2_250]
  case o3 =>
    constructor
    · intro C hC
      simp only [thresholds, getD_list6_5] at hC
      rw [sub_o3_eq]
      split_ifs <;> linarith
    · simp only [thresholds, getD_list6_5]
      rw [sub_o3_eq]
      norm_num [round2_250]
  case co =>
    constructor
    · intro C hC
      simp only [thresholds, getD_list6_5] at hC
      rw [sub_co_eq]
      split_ifs <;> linarith
    · simp only [thresholds, getD_list6_5]
      rw [sub_co_eq]
      norm_num [round2_250]

/-- Witness for the amended C2: PM10 concentration 600 (above the top
breakpoint 500) yields sub-index 500. -/
theorem sub_saturation_witness : calculate_sub_index 600 Pollutant.pm10 = 500 :=
  (sub_saturation Pollutant.pm10).1 600
    (by norm_num [thresholds, getD_list6_5])

/-- Claim C9: for every pollutant and nonnegative concentration, the sub-index
lies in [0, 250] or equals exactly 500; no value strictly between 250 and 500
is attainable. -/
theorem sub_index_range (p : Pollutant) (C : ℚ) (h0 : 0 ≤ C) :
    (0 ≤ calculate_sub_index C p ∧ calculate_sub_index C p ≤ 250) ∨
      calculate_sub_index C p = 500 := by
  cases p
  case pm10 =>
    rw [sub_pm10_eq]
    split_ifs <;>
      first
        | exact Or.inr rfl
        | exact Or.inl ⟨le_round2_of_le round2_0 (by linarith),
            round2_le_of_le round2_250 (by linarith)⟩
  case pm2_5 =>
    rw [sub_pm2_5_eq]
    split_ifs <;>
      first
        | exact Or.inr rfl
        | exact Or.inl ⟨le_round2_of_le round2_0 (by linarith),
            round2_le_of_le round2_250 (by linarith)⟩
  case so2 =>
    rw [sub_so2_eq]
    split_ifs <;>
      first
        | exact Or.inr rfl
        | exact Or.inl ⟨le_round2_of_le round2_0 (by linarith),
            round2_le_of_le round2_250 (by linarith)⟩
  case no2 =>
    rw [sub_no2_eq]
    split_ifs <;>
      first
        | exact Or.inr rfl
        | exact Or.inl ⟨le_round2_of_le round2_0 (by linarith),
            round2_le_of_le round2_250 (by linarith)⟩
  case o3 =>
    rw [sub_o3_eq]
    split_ifs <;>
      first
        | exact Or.inr rfl
        | exact Or.inl ⟨le_round2_of_le round2_0 (by linarith),
            round2_le_of_le round2_250 (by linarith)⟩
  case co =>
    rw [sub_co_eq]
    split_ifs <;>
      first
        | exact Or.inr rfl
        | exact Or.inl ⟨le_round2_of_le round2_0 (by linarith),
            round2_le_of_le round2_250 (by linarith)⟩

/-- Witness for C9 at PM10 concentration 0: the sub-index is in [0, 250]. -/
theorem sub_index_range_witness :
    (0 ≤ calculate_sub_index 0 Pollutant.pm10 ∧
      calculate_sub_index 0 Pollutant.pm10 ≤ 250) ∨
      calculate_sub_index 0 Pollutant.pm10 = 500 :=
  sub_index_range Pollutant.pm10 0 le_rfl

end Ispu
namespace Ispu

lemma scanFrom_unfold (t0 t1 t2 t3 t4 t5 C : ℚ) :
    scanFrom [t0, t1, t2, t3, t4, t5] C 5 0 =
      if C ≤ t1 then interpBand [t0, t1, t2, t3, t4, t5] 0 C
      else if C ≤ t2 then interpBand [t0, t1, t2, t3, t4, t5] 1 C
      else if C ≤ t3 then interpBand [t0, t1, t2, t3, t4, t5] 2 C
      else if C ≤ t4 then interpBand [t0, t1, t2, t3, t4, t5] 3 C
      else if C ≤ t5 then interpBand [t0, t1, t2, t3, t4, t5] 4 C
      else 500 := rfl

lemma scanFrom_first_band (t0 t1 t2 t3 t4 t5 C : ℚ) (i : ℕ) (hi : i < 5)
    (hd : [t0, t1, t2, t3, t4, t5].getD (i + 1) 0 -
      [t0, t1, t2, t3, t4, t5].getD i 0 ≠ 0)
    (hub : C ≤ [t0, t1, t2, t3, t4, t5].getD (i + 1) 0)
    (hfirst : ∀ j, j < i → [t0, t1, t2, t3, t4, t5].getD (j + 1) 0 < C) :
    scanFrom [t0, t1, t2, t3, t4, t5] C 5 0 =
      round2 ((i : ℚ) * 50 + (((i : ℚ) + 1) * 50 - (i : ℚ) * 50) /
        ([t0, t1, t2, t3, t4, t5].getD (i + 1) 0 -
          [t0, t1, t2, t3, t4, t5].getD i 0) *
        (C - [t0, t1, t2, t3, t4, t5].getD i 0)) := by
  interval_cases i
  · norm_num [getD_list6_0, getD_list6_1] at hd hub ⊢
    rw [scanFrom_unfold, if_pos hub]
    simp only [interpBand, getD_list6_0, getD_list6_1]
    rw [if_neg (by exact_mod_cast hd)]
    congr 1
    norm_num [getD_list6_0, getD_list6_1, getD_list6_2, getD_list6_3,
      getD_list6_4, getD_list6_5]
    try ring
  · have f0 := hfirst 0 (by norm_num)
    norm_num [getD_list6_1, getD_list6_2] at hd hub f0 ⊢
    rw [scanFrom_unfold, if_neg (by linarith), if_pos hub]
    simp only [interpBand, getD_list6_1, getD_list6_2]
    rw [if_neg (by exact_mod_cast hd)]
    congr 1
    norm_num [getD_list6_0, getD_list6_1, getD_list6_2, getD_list6_3,
      getD_list6_4, getD_list6_5]
    try ring
  · have f0 := hfirst 0 (by norm_num)
    have f1 := hfirst 1 (by norm_num)
    norm_num [getD_list6_1, getD_list6_2, getD_list6_3] at hd hub f0 f1 ⊢
    rw [scanFrom_unfold, if_neg (by linarith), if_neg (by linarith),
      if_pos hub]
    simp only [interpBand, getD_list6_2, getD_list6_3]
    rw [if_neg (by exact_mod_cast hd)]
    congr 1
    norm_num [getD_list6_0, getD_list6_1, getD_list6_2, getD_list6_3,
      getD_list6_4, getD_list6_5]
    try ring
  · have f0 := hfirst 0 (by norm_num)
    have f1 := hfirst 1 (by norm_num)
    have f2 := hfirst 2 (by norm_num)
    norm_num [getD_list6_1, getD_list6_2, getD_list6_3, getD_list6_4]
      at hd hub f0 f1 f2 ⊢
    rw [scanFrom_unfold, if_neg (by linarith), if_neg (by linarith),
      if_neg (by linarith), if_pos hub]
    simp only [interpBand, getD_list6_3, getD_list6_4]
    rw [if_neg (by exact_mod_cast hd)]
    congr 1
    norm_num [getD_list6_0, getD_list6_1, getD_list6_2, getD_list6_3,
      getD_list6_4, getD_list6_5]
    try ring
  · have f0 := hfirst 0 (by norm_num)
    have f1 := hfirst 1 (by norm_num)
    have f2 := hfirst 2 (by norm_num)
    have f3 := hfirst 3 (by norm_num)
    norm_num [getD_list6_1, getD_list6_2, getD_list6_3, getD_list6_4,
      getD_list6_5] at hd hub f0 f1 f2 f3 ⊢
    rw [scanFrom_unfold, if_neg (by linarith), if_neg (by linarith),
      if_neg (by linarith), if_neg (by linarith), if_pos hub]
    simp only [interpBand, getD_list6_4, getD_list6_5]
    rw [if_neg (by exact_mod_cast hd)]
    congr 1
    norm_num [getD_list6_0, getD_list6_1, getD_list6_2, getD_list6_3,
      getD_list6_4, getD_list6_5]
    try ring

/-- Claim C1: for every pollutant and concentration within the table, the
sub-index is the 2-decimal rounding of the linear interpolation over the first
band `i` (the least `i` with `C ≤ thresh[i+1]`), with `I_low = i*50`,
`I_high = (i+1)*50`, `C_low = thresh[i]`, `C_high = thresh[i+1]`. -/
theorem first_band_interpolation (p : Pollutant) (C : ℚ) (i : ℕ) (h0 : 0 ≤ C)
    (hi : i < 5) (hub : C ≤ (thresholds p).getD (i + 1) 0)
    (hfirst : ∀ j, j < i → (thresholds p).getD (j + 1) 0 < C) :
    calculate_sub_index C p =
      round2 ((i : ℚ) * 50 + (((i : ℚ) + 1) * 50 - (i : ℚ) * 50) /
        ((thresholds p).getD (i + 1) 0 - (thresholds p).getD i 0) *
        (C - (thresholds p).getD i 0)) := by
  cases p <;>
    simp only [thresholds, calculate_sub_index] at hub hfirst ⊢ <;>
    refine scanFrom_first_band _ _ _ _ _ _ C i hi ?_ hub hfirst <;>
    interval_cases i <;>
    norm_num [getD_list6_0, getD_list6_1, getD_list6_2, getD_list6_3,
      getD_list6_4, getD_list6_5]

/-- Witness for C1: PM10 concentration 75 lies in band 1 (50 < 75 ≤ 150). -/
theorem first_band_interpolation_witness :
    calculate_sub_index 75 Pollutant.pm10 =
      round2 ((1 : ℚ) * 50 + (((1 : ℚ) + 1) * 50 - (1 : ℚ) * 50) /
        ((thresholds Pollutant.pm10).getD 2 0 -
          (thresholds Pollutant.pm10).getD 1 0) *
        (75 - (thresholds Pollutant.pm10).getD 1 0)) := by
  have h := first_band_interpolation Pollutant.pm10 75 1 (by norm_num)
    (by norm_num)
    (by norm_num [thresholds, getD_list6_2])
    (by
      intro j hj
      interval_cases j
      norm_num [thresholds, getD_list6_1])
  exact_mod_cast h

end Ispu
namespace Ispu

lemma ispu_fst_eq (pm10 pm2_5 so2 no2 o3 co : ℚ) :
    (calculate_ispu_manual pm10 pm2_5 so2 no2 o3 co).1 =
      pyMax [calculate_sub_index pm10 Pollutant.pm10,
        calculate_sub_index pm2_5 Pollutant.pm2_5,
        calculate_sub_index so2 Pollutant.so2,
        calculate_sub_index no2 Pollutant.no2,
        calculate_sub_index o3 Pollutant.o3,
        calculate_sub_index (co * 1000) Pollutant.co] := rfl

/-- Claim C3: the overall index returned by `calculate_ispu_manual` is the
maximum of the six per-pollutant sub-indices, and the reported dominant
pollutant is the name, in the fixed order [PM10, PM2.5, SO₂, NO₂, O₃, CO], of
the first sub-index attaining that maximum. -/
theorem overall_max_dominant_first (pm10 pm2_5 so2 no2 o3 co : ℚ) :
    (calculate_ispu_manual pm10 pm2_5 so2 no2 o3 co).2.1 =
      [calculate_sub_index pm10 Pollutant.pm10,
       calculate_sub_index pm2_5 Pollutant.pm2_5,
       calculate_sub_index so2 Pollutant.so2,
       calculate_sub_index no2 Pollutant.no2,
       calculate_sub_index o3 Pollutant.o3,
       calculate_sub_index (co * 1000) Pollutant.co] ∧
    (calculate_ispu_manual pm10 pm2_5 so2 no2 o3 co).1 ∈
      (calculate_ispu_manual pm10 pm2_5 so2 no2 o3 co).2.1 ∧
    (∀ s ∈ (calculate_ispu_manual pm10 pm2_5 so2 no2 o3 co).2.1,
      s ≤ (calculate_ispu_manual pm10 pm2_5 so2 no2 o3 co).1) ∧
    ∃ j, j < 6 ∧
      (calculate_ispu_manual pm10 pm2_5 so2 no2 o3 co).2.1.getD j 0 =
        (calculate_ispu_manual pm10 pm2_5 so2 no2 o3 co).1 ∧
      (∀ k, k < j →
        (calculate_ispu_manual pm10 pm2_5 so2 no2 o3 co).2.1.getD k 0 <
          (calculate_ispu_manual pm10 pm2_5 so2 no2 o3 co).1) ∧
      (calculate_ispu_manual pm10 pm2_5 so2 no2 o3 co).2.2 =
        pollutantNames.getD j "" := by
  have hmem : (calculate_ispu_manual pm10 pm2_5 so2 no2 o3 co).1 ∈
      (calculate_ispu_manual pm10 pm2_5 so2 no2 o3 co).2.1 :=
    pyMax_mem (List.cons_ne_nil _ _)
  have hlen : (calculate_ispu_manual pm10 pm2_5 so2 no2 o3 co).2.1.length = 6 :=
    rfl
  refine ⟨rfl, hmem, fun s hs => le_pyMax hs, ?_⟩
  refine ⟨idxOf (calculate_ispu_manual pm10 pm2_5 so2 no2 o3 co).1
    (calculate_ispu_manual pm10 pm2_5 so2 no2 o3 co).2.1, ?_, ?_, ?_, rfl⟩
  · rw [← hlen]
    exact idxOf_lt_length hmem
  · exact getD_idxOf hmem
  · intro k hk
    have hk6 : k < (calculate_ispu_manual pm10 pm2_5 so2 no2 o3 co).2.1.length :=
      lt_trans hk (idxOf_lt_length hmem)
    exact lt_of_le_of_ne (le_pyMax (getD_mem_of_lt hk6)) (getD_lt_idxOf k hk)

/-- Witness for C3 at all-zero inputs: the overall index is a member of the
sub-index list and bounds its second entry. -/
theorem overall_max_dominant_first_witness :
    (calculate_ispu_manual 0 0 0 0 0 0).1 ∈
      (calculate_ispu_manual 0 0 0 0 0 0).2.1 :=
  (overall_max_dominant_first 0 0 0 0 0 0).2.1

/-- Claim C6: increasing the concentration of a single pollutant while all other
inputs are 0 never decreases the overall index of `calculate_ispu_manual`. -/
theorem overall_single_mono (p : Pollutant) (c1 c2 : ℚ) (h0 : 0 ≤ c1)
    (h : c1 ≤ c2) : (singleInput p c1).1 ≤ (singleInput p c2).1 := by
  cases p
  case pm10 =>
    show (calculate_ispu_manual c1 0 0 0 0 0).1 ≤
      (calculate_ispu_manual c2 0 0 0 0 0).1
    rw [ispu_fst_eq, ispu_fst_eq]
    exact pyMax6_mono (sub_mono _ h) le_rfl le_rfl le_rfl le_rfl le_rfl
  case pm2_5 =>
    show (calculate_ispu_manual 0 c1 0 0 0 0).1 ≤
      (calculate_ispu_manual 0 c2 0 0 0 0).1
    rw [ispu_fst_eq, ispu_fst_eq]
    exact pyMax6_mono le_rfl (sub_mono _ h) le_rfl le_rfl le_rfl le_rfl
  case so2 =>
    show (calculate_ispu_manual 0 0 c1 0 0 0).1 ≤
      (calculate_ispu_manual 0 0 c2 0 0 0).1
    rw [ispu_fst_eq, ispu_fst_eq]
    exact pyMax6_mono le_rfl le_rfl (sub_mono _ h) le_rfl le_rfl le_rfl
  case no2 =>
    show (calculate_ispu_manual 0 0 0 c1 0 0).1 ≤
      (calculate_ispu_manual 0 0 0 c2 0 0).1
    rw [ispu_fst_eq, ispu_fst_eq]
    exact pyMax6_mono le_rfl le_rfl le_rfl (sub_mono _ h) le_rfl le_rfl
  case o3 =>
    show (calculate_ispu_manual 0 0 0 0 c1 0).1 ≤
      (calculate_ispu_manual 0 0 0 0 c2 0).1
    rw [ispu_fst_eq, ispu_fst_eq]
    exact pyMax6_mono le_rfl le_rfl le_rfl le_rfl (sub_mono _ h) le_rfl
  case co =>
    show (calculate_ispu_manual 0 0 0 0 0 c1).1 ≤
      (calculate_ispu_manual 0 0 0 0 0 c2).1
    rw [ispu_fst_eq, ispu_fst_eq]
    exact pyMax6_mono le_rfl le_rfl le_rfl le_rfl le_rfl
      (sub_mono _ (by linarith))

/-- Witness for C6: PM10 from 0 to 100 with all other inputs 0. -/
theorem overall_single_mono_witness :
    (singleInput Pollutant.pm10 0).1 ≤ (singleInput Pollutant.pm10 100).1 :=
  overall_single_mono Pollutant.pm10 0 100 le_rfl (by norm_num)

end Ispu
namespace Ispu

/-- Claim C8 counterexample: in the fixture scenario, the PM2.5 sub-index for
concentration 35 is 74.44 (band 1, index range 50..100), not a value between 0
and 50. -/
theorem scenario_pm2_5_band :
    calculate_sub_index 35 Pollutant.pm2_5 = 74.44 ∧
    ¬(calculate_sub_index 35 Pollutant.pm2_5 ≤ 50) := by
  have h : calculate_sub_index 35 Pollutant.pm2_5 = 74.44 := by
    rw [sub_pm2_5_eq]
    norm_num [round2, roundHalfEven]
  rw [h]
  norm_num

/-- Claim C8 amended: in the fixture scenario, CO is normalized to 4000 μg/m³
(its first breakpoint, sub-index 50); PM2.5 at 35 interpolates between 15.5
and 55.4 in band 1, giving 74.44 (between 50 and 100); the overall result is
the maximum 74.44 of the six sub-indices, PM2.5 is dominant, and the category
comes from that maximum. -/
theorem scenario_regression :
    calculate_sub_index ((4 : ℚ) * 1000) Pollutant.co = 50 ∧
    calculate_sub_index 35 Pollutant.pm2_5 = 74.44 ∧
    (50 : ℚ) < 74.44 ∧ (74.44 : ℚ) < 100 ∧
    (calculate_ispu_manual 50 35 20 40 50 4).2.1 =
      [50, 74.44, 19.23, 25, 20.83, 50] ∧
    (calculate_ispu_manual 50 35 20 40 50 4).1 =
      pyMax [50, 74.44, 19.23, 25, 20.83, 50] ∧
    (calculate_ispu_manual 50 35 20 40 50 4).1 = 74.44 ∧
    (calculate_ispu_manual 50 35 20 40 50 4).2.2 = "PM2.5" ∧
    classify_based_on_ispu (calculate_ispu_manual 50 35 20 40 50 4).1 =
      "Sedang 🟡" := by
  norm_num [calculate_ispu_manual, sub_pm10_eq, sub_pm2_5_eq, sub_so2_eq,
    sub_no2_eq, sub_o3_eq, sub_co_eq, round2, roundHalfEven, pyMax,
    List.foldl, max_def, idxOf, pollutantNames, classify_based_on_ispu,
    getD_list6_1]

end Ispu
namespace Ispu

lemma validate_inputs_readings (r : Readings) :
    validate_inputs (inputsList r) =
      ((if r.pm10 < 0 then ["PM10 tidak boleh negatif"]
        else if r.pm10 > 10000 then ["PM10 terlalu tinggi (maksimal 10000)"]
        else []) ++
       ((if r.pm2_5 < 0 then ["PM2_5 tidak boleh negatif"]
        else if r.pm2_5 > 10000 then ["PM2_5 terlalu tinggi (maksimal 10000)"]
        else []) ++
       ((if r.so2 < 0 then ["SO2 tidak boleh negatif"]
        else if r.so2 > 10000 then ["SO2 terlalu tinggi (maksimal 10000)"]
        else []) ++
       ((if r.no < 0 then ["NO tidak boleh negatif"]
        else if r.no > 10000 then ["NO terlalu tinggi (maksimal 10000)"]
        else []) ++
       ((if r.no2 < 0 then ["NO2 tidak boleh negatif"]
        else if r.no2 > 10000 then ["NO2 terlalu tinggi (maksimal 10000)"]
        else []) ++
       ((if r.o3 < 0 then ["O3 tidak boleh negatif"]
        else if r.o3 > 10000 then ["O3 terlalu tinggi (maksimal 10000)"]
        else []) ++
       ((if r.co < 0 then ["CO tidak boleh negatif"]
        else if r.co > 10000 then ["CO terlalu tinggi (maksimal 10000)"]
        else []) ++
       ((if r.nh3 < 0 then ["NH3 tidak boleh negatif"]
        else if r.nh3 > 10000 then ["NH3 terlalu tinggi (maksimal 10000)"]
        else []) ++ [])))))))) ++
      (if r.co > 100 then ["Nilai CO terlalu tinggi (maksimal 100 mg/m³)"]
       else []) := rfl

end Ispu
namespace Ispu

lemma entry_nil_iff (m1 m2 : String) (v : ℚ) :
    ((if v < 0 then [m1] else if v > 10000 then [m2] else []) = []) ↔
      (0 ≤ v ∧ v ≤ 10000) := by
  split_ifs with h1 h2
  · exact iff_of_false not_false (fun h => absurd h.1 (not_le.mpr h1))
  · exact iff_of_false not_false (fun h => absurd h.2 (not_le.mpr h2))
  · exact iff_of_true rfl ⟨not_lt.mp h1, not_lt.mp h2⟩

lemma if_singleton_nil_iff (c : Prop) [Decidable c] (m : String) :
    ((if c then [m] else []) = []) ↔ ¬c := by
  split_ifs with h
  · exact iff_of_false not_false (not_not_intro h)
  · exact iff_of_true rfl h

lemma entry_length (m1 m2 : String) (v : ℚ) :
    ((if v < 0 then [m1] else if v > 10000 then [m2] else []) :
      List String).length = if v < 0 ∨ v > 10000 then 1 else 0 := by
  split_ifs <;> first | rfl | tauto

lemma if_singleton_length (c : Prop) [Decidable c] (m : String) :
    ((if c then [m] else []) : List String).length = if c then 1 else 0 := by
  split_ifs <;> rfl

/-- Claim C7 counterexample: for CO = 20000 (all other readings 0) the
validator emits two messages (general cap and CO-specific cap) although only
one field offends. -/
theorem validation_two_msgs_one_field :
    (validate_inputs (inputsList ⟨0, 0, 0, 0, 0, 0, 20000, 0⟩)).length = 2 ∧
    (offendingFields ⟨0, 0, 0, 0, 0, 0, 20000, 0⟩).length = 1 := by
  constructor
  · rw [validate_inputs_readings]
    norm_num
  · norm_num [offendingFields]

/-- Claim C7 amended: the validator returns no message iff all eight readings
are in [0, 10000] and CO is at most 100; each offending field yields exactly
one message except CO above 10000 which yields two; a CO value above 100
always yields the CO-specific message; and the engine is never invoked while
any message exists. -/
theorem validation_gate (r : Readings) :
    (validate_inputs (inputsList r) = [] ↔
      ((0 ≤ r.pm10 ∧ r.pm10 ≤ 10000) ∧ (0 ≤ r.pm2_5 ∧ r.pm2_5 ≤ 10000) ∧
       (0 ≤ r.so2 ∧ r.so2 ≤ 10000) ∧ (0 ≤ r.no ∧ r.no ≤ 10000) ∧
       (0 ≤ r.no2 ∧ r.no2 ≤ 10000) ∧ (0 ≤ r.o3 ∧ r.o3 ≤ 10000) ∧
       (0 ≤ r.co ∧ r.co ≤ 10000) ∧ (0 ≤ r.nh3 ∧ r.nh3 ≤ 10000) ∧
       r.co ≤ 100)) ∧
    (validate_inputs (inputsList r)).length =
      (offendingFields r).length + (if r.co > 10000 then 1 else 0) ∧
    (r.co > 100 →
      "Nilai CO terlalu tinggi (maksimal 100 mg/m³)" ∈
        validate_inputs (inputsList r)) ∧
    (validate_inputs (inputsList r) ≠ [] →
      runPrediction r = Except.error (validate_inputs (inputsList r))) := by
  refine ⟨?_, ?_, ?_, ?_⟩
  · rw [validate_inputs_readings]
    simp only [List.append_eq_nil, entry_nil_iff, if_singleton_nil_iff,
      not_lt, List.nil_eq, and_true, eq_self_iff_true]
    tauto
  · have hco : (if r.co < 0 ∨ r.co > 10000 then (1 : ℕ) else 0) +
        (if r.co > 100 then (1 : ℕ) else 0) =
        (if r.co < 0 ∨ r.co > 10000 ∨ r.co > 100 then (1 : ℕ) else 0) +
        (if r.co > 10000 then (1 : ℕ) else 0) := by
      by_cases hb : r.co > 10000
      · have hc : r.co > 100 := by linarith
        rw [if_pos (Or.inr hb), if_pos hc, if_pos (Or.inr (Or.inl hb)),
          if_pos hb]
      · by_cases hc : r.co > 100
        · have hab : ¬(r.co < 0 ∨ r.co > 10000) := by
            rintro (h | h) <;> linarith
          rw [if_neg hab, if_pos hc, if_pos (Or.inr (Or.inr hc)), if_neg hb]
        · by_cases ha : r.co < 0
          · rw [if_pos (Or.inl ha), if_neg hc, if_pos (Or.inl ha), if_neg hb]
          · have hab : ¬(r.co < 0 ∨ r.co > 10000) := by tauto
            have habc : ¬(r.co < 0 ∨ r.co > 10000 ∨ r.co > 100) := by tauto
            rw [if_neg hab, if_neg hc, if_neg habc, if_neg hb]
    rw [validate_inputs_readings]
    simp only [offendingFields, List.length_append, entry_length,
      if_singleton_length, List.length_nil]
    linarith [hco]
  · intro h
    rw [validate_inputs_readings]
    refine List.mem_append_right _ ?_
    rw [if_pos h]
    exact List.mem_singleton_self _
  · intro hne
    simp only [runPrediction]
    split_ifs with he
    · exact absurd (List.isEmpty_iff.mp he) hne
    · rfl

/-- Witness for the amended C7: CO = 150 yields the CO validation message and
the engine is not invoked. -/
theorem validation_gate_witness :
    "Nilai CO terlalu tinggi (maksimal 100 mg/m³)" ∈
      validate_inputs (inputsList ⟨0, 0, 0, 0, 0, 0, 150, 0⟩) ∧
    runPrediction ⟨0, 0, 0, 0, 0, 0, 150, 0⟩ =
      Except.error (validate_inputs (inputsList ⟨0, 0, 0, 0, 0, 0, 150, 0⟩)) :=
  ⟨(validation_gate ⟨0, 0, 0, 0, 0, 0, 150, 0⟩).2.2.1 (by norm_num),
   (validation_gate ⟨0, 0, 0, 0, 0, 0, 150, 0⟩).2.2.2
     (by rw [validate_inputs_readings]; norm_num)⟩

end Ispu
